import Mathlib

/-!
Verification of the Git repository operations facade
(`src/tools/git_operations_tool.py`, class `GitOperationsTool`).

The facade is embedded shallowly: each Python method becomes a Lean function
over an explicit facade state (`GitOperationsTool`), an explicit model of the
repository as seen through the GitPython library (`RepoState`), and explicit
oracles for the outcomes of the underlying library calls (exceptions raised,
objects returned).  Result dictionaries are association lists preserving the
key order of the Python dict literals; a method call evaluates to
`(Except PyExc PyDict) × GitOperationsTool`: `.ok d` is a returned result
record, `.error e` is an exception propagating past the facade boundary, and
the second component is the facade state after the call.
-/

/-! ## Python string primitives -/

/-- `s.startswith(p)` on Python strings, as a prefix test on the character
lists underlying the Lean strings. -/
def pyStartsWith (s p : String) : Bool :=
  p.data.isPrefixOf s.data

/-- Fueled worker for Python's `str.replace(old, new)`: scan left to right,
replacing non-overlapping occurrences of `old`.  With `fuel ≥ s.length` the
fuel never runs out, because each step consumes at least one character. -/
def pyReplaceAux (old new : List Char) : Nat → List Char → List Char
  | _, [] => []
  | 0, s => s
  | fuel+1, c :: rest =>
    if old ≠ [] ∧ old.isPrefixOf (c :: rest) then
      new ++ pyReplaceAux old new fuel ((c :: rest).drop old.length)
    else
      c :: pyReplaceAux old new fuel rest

/-- Python's `s.replace(old, new)` for a non-empty pattern `old`: replaces
every non-overlapping occurrence of `old` in `s`, scanning left to right.
(The facade only ever calls `replace` with non-empty literal patterns.) -/
def pyReplace (s old new : String) : String :=
  ⟨pyReplaceAux old.data new.data s.data.length s.data⟩

/-- Python's `str.strip()` (no arguments): remove leading and trailing
whitespace characters. -/
def pyStrip (s : String) : String :=
  ⟨((s.data.dropWhile Char.isWhitespace).reverse.dropWhile Char.isWhitespace).reverse⟩

/-- Truthiness of a Python `Optional[str]`: `None` and `""` are falsy. -/
def strTruthy : Option String → Bool
  | none => false
  | some s => !(s = "")

/-- Truthiness of a Python `Optional[List[str]]`: `None` and `[]` are falsy. -/
def listTruthy : Option (List String) → Bool
  | none => false
  | some l => !l.isEmpty

/-- Python's `a or b` for two optional strings, as used for configuration
fallback (`repo_url or self.default_repo_url`): yields `a` when `a` is truthy,
otherwise `b`. -/
def pyOrStr (a b : Option String) : Option String :=
  if strTruthy a then a else b

/-! ## Exceptions and result records -/

/-- The Python exception classes relevant to the facade.  `gitCommandError`
is GitPython's `GitCommandError` (the only class most operations catch);
`invalidGitRepositoryError` is `git.exc.InvalidGitRepositoryError`;
`valueError` is the builtin `ValueError`; `otherError` stands for any other
exception class. -/
inductive PyExc where
  | gitCommandError (msg : String)
  | invalidGitRepositoryError (msg : String)
  | valueError (msg : String)
  | otherError (msg : String)
  deriving Repr, DecidableEq

/-- `str(e)` of an exception, as interpolated into the error messages. -/
def PyExc.message : PyExc → String
  | .gitCommandError m => m
  | .invalidGitRepositoryError m => m
  | .valueError m => m
  | .otherError m => m

/-- One entry of the list built by `get_commit_history`. -/
structure CommitEntry where
  sha : String
  short_sha : String
  message : String
  author : String
  date : String
  deriving Repr, DecidableEq

/-- A value stored in one of the facade's result dictionaries. -/
inductive PyVal where
  | str (s : String)
  | bool (b : Bool)
  | nat (n : Nat)
  | strList (l : List String)
  | commitList (l : List CommitEntry)
  deriving Repr, DecidableEq

/-- A Python result dict, as an association list in key order. -/
abbrev PyDict := List (String × PyVal)

/-- The record `{"success": False, "error": "No repository loaded"}` returned
by every operation that requires a bound repository when none is available. -/
def noRepoResult : PyDict :=
  [("success", .bool false), ("error", .str "No repository loaded")]

/-! ## The repository as seen through GitPython -/

/-- A commit object of the underlying library, restricted to the attributes
the facade reads: `hexsha`, `message`, `str(commit.author)` and
`commit.committed_datetime.isoformat()`. -/
structure Commit where
  hexsha : String
  message : String
  author : String
  committed_datetime_isoformat : String
  deriving Repr, DecidableEq

/-- The state of a repository as observed through the GitPython `Repo`
handle, restricted to the features the facade uses.
`untracked_files` models `repo.untracked_files`; `diff_working` models the
`a_path`s of `repo.index.diff(None)` (modified but unstaged paths);
`diff_head` models the `a_path`s of `repo.index.diff("HEAD")` (staged paths);
`heads` the local branch names; `commits` the reverse-chronological commit
ancestry of the current head as yielded by `repo.iter_commits()`;
`branch_commits b` the ancestry from rev `b` as yielded by
`repo.iter_commits(b)`; `remotes` the configured remotes as name/URL pairs;
`remote_refs` the names of the remote-tracking refs of `repo.remote()`;
`git_diff cached path` the text produced by `repo.git.diff(...)`. -/
structure RepoState where
  active_branch : String
  untracked_files : List String
  diff_working : List String
  diff_head : List String
  heads : List String
  commits : List Commit
  branch_commits : String → List Commit
  remotes : List (String × String)
  remote_refs : List String
  git_diff : Bool → Option String → String

/-- Models GitPython's `Repo.is_dirty()` *with its default arguments*
(`index=True, working_tree=True, untracked_files=False`): the repository
counts as dirty iff the index differs from `HEAD` or the working tree differs
from the index.  Untracked files are NOT considered. -/
def RepoState.is_dirty (r : RepoState) : Bool :=
  !r.diff_head.isEmpty || !r.diff_working.isEmpty

/-- Models `repo.git.add(A=True)` (i.e. `git add -A`): every modified and
untracked path is staged; afterwards the working tree matches the index, so
`index.diff(None)` and `untracked_files` are empty, and `index.diff("HEAD")`
holds the previously staged paths together with the previously modified and
untracked ones. -/
def gitAddAll (r : RepoState) : RepoState :=
  { r with
    untracked_files := []
    diff_working := []
    diff_head := r.diff_head ++ r.diff_working ++ r.untracked_files }

/-- Models `repo.index.add(paths)`: the named paths are staged, i.e. removed
from the untracked and modified-but-unstaged sets and added to the
index-vs-HEAD set. -/
def indexAdd (r : RepoState) (paths : List String) : RepoState :=
  { r with
    untracked_files := r.untracked_files.filter (fun p => !paths.contains p)
    diff_working := r.diff_working.filter (fun p => !paths.contains p)
    diff_head := r.diff_head ++ paths.filter (fun p => !r.diff_head.contains p) }

/-- Models `repo.index.commit(...)` succeeding with commit object `c`: the
index now matches `HEAD`, and `c` becomes the newest commit in the ancestry
of the current head. -/
def indexCommitEffect (r : RepoState) (c : Commit) : RepoState :=
  { r with
    diff_head := []
    commits := c :: r.commits
    branch_commits := fun b =>
      if b = r.active_branch then c :: r.branch_commits b else r.branch_commits b }

/-! ## The facade state and construction -/

/-- The mutable attributes of a `GitOperationsTool` instance. -/
structure GitOperationsTool where
  repo_path : Option String
  github_token : Option String
  default_repo_url : Option String
  default_branch : String
  repo : Option RepoState

/-- The environment variables read by the constructor
(`GIT_REPO_PATH`, `GITHUB_TOKEN`, `GIT_REPO_URL`, `GIT_DEFAULT_BRANCH`). -/
structure EnvVars where
  git_repo_path : Option String
  github_token : Option String
  git_repo_url : Option String
  git_default_branch : Option String

/-- The filesystem as consulted by the facade: `path_exists` models
`os.path.exists`; `open_repo p` models constructing `Repo(p)` for an existing
path, yielding the repository state, or `none` when the path is not a valid
Git repository (GitPython raises `InvalidGitRepositoryError`). -/
structure FsEnv where
  path_exists : String → Bool
  open_repo : String → Option RepoState

/-- `GitOperationsTool.__init__(repo_path, github_token, use_env_config)`.
Resolves configuration (environment fallback uses Python `or`, so empty
strings also fall back), then, if the resolved path is truthy and exists,
opens it: an invalid repository raises
`ValueError(f"{self.repo_path} is not a valid Git repository")`, which
propagates out of the constructor. -/
def GitOperationsTool.init (fs : FsEnv) (env : EnvVars)
    (repo_path github_token : Option String) (use_env_config : Bool) :
    Except PyExc GitOperationsTool :=
  let rp := if use_env_config then pyOrStr repo_path env.git_repo_path else repo_path
  let gt := if use_env_config then pyOrStr github_token env.github_token else github_token
  let du := if use_env_config then env.git_repo_url else none
  let db := if use_env_config then (env.git_default_branch.getD "main") else "main"
  let t : GitOperationsTool :=
    { repo_path := rp, github_token := gt, default_repo_url := du,
      default_branch := db, repo := none }
  match rp with
  | some p =>
    if (!(p = "")) && fs.path_exists p then
      match fs.open_repo p with
      | some r => .ok { t with repo := some r }
      | none => .error (.valueError (p ++ " is not a valid Git repository"))
    else .ok t
  | none => .ok t

/-- `GitOperationsTool._get_authenticated_url(repo_url)`: with a falsy token
the URL is returned unchanged; otherwise a leading `git@github.com:` URL is
rewritten with `str.replace` to the HTTPS form, and then a leading
`https://github.com/` URL has every occurrence of that prefix string replaced
by `https://{token}@github.com/`. -/
def GitOperationsTool._get_authenticated_url (github_token : Option String)
    (repo_url : String) : String :=
  match github_token with
  | none => repo_url
  | some tok =>
    if tok = "" then repo_url
    else
      let u :=
        if pyStartsWith repo_url "git@github.com:" then
          pyReplace repo_url "git@github.com:" "https://github.com/"
        else repo_url
      if pyStartsWith u "https://github.com/" then
        pyReplace u "https://github.com/" ("https://" ++ tok ++ "@github.com/")
      else u

/-- `GitOperationsTool._ensure_repo_loaded()`: when `repo_path` is truthy and
exists on disk, try to open it; opening an invalid repository is caught
(`except InvalidGitRepositoryError: return False`).  Returns the Python
return value together with the updated facade state. -/
def GitOperationsTool._ensure_repo_loaded (t : GitOperationsTool) (fs : FsEnv) :
    Bool × GitOperationsTool :=
  match t.repo_path with
  | some p =>
    if (!(p = "")) && fs.path_exists p then
      match fs.open_repo p with
      | some r => (true, { t with repo := some r })
      | none => (false, t)
    else (false, t)
  | none => (false, t)

/-- The common prelude `if not self.repo: self._ensure_repo_loaded()` that
begins every operation requiring a bound repository. -/
def tryEnsure (t : GitOperationsTool) (fs : FsEnv) : GitOperationsTool :=
  if t.repo.isNone then (t._ensure_repo_loaded fs).2 else t

/-! ## Operations

Each operation takes the facade state, the filesystem environment, and an
oracle for the outcomes of the underlying library calls made inside its
`try` block, and returns the result record (or propagated exception) together
with the facade state after the call. -/

/-- Oracle for `clone_repository`: the outcome of
`Repo.clone_from(authenticated_url, destination_path, **clone_kwargs)` as a
function of the URL, destination, `branch` kwarg and `depth` kwarg actually
passed. -/
structure CloneEnv where
  clone_from : String → String → Option String → Option Nat → Except PyExc RepoState

/-- `GitOperationsTool.clone_repository(repo_url, destination_path, branch, depth)`. -/
def GitOperationsTool.clone_repository (t : GitOperationsTool) (env : CloneEnv)
    (repo_url destination_path branch : Option String) (depth : Option Nat) :
    (Except PyExc PyDict) × GitOperationsTool :=
  let url := pyOrStr repo_url t.default_repo_url
  let dest := pyOrStr destination_path t.repo_path
  if !(strTruthy url) then
    (.ok [("success", .bool false),
          ("error", .str "No repository URL provided and GIT_REPO_URL not set in environment")], t)
  else if !(strTruthy dest) then
    (.ok [("success", .bool false),
          ("error", .str "No destination path provided and GIT_REPO_PATH not set in environment")], t)
  else
    let u := url.getD ""
    let d := dest.getD ""
    let branchKwarg : Option String :=
      if strTruthy branch then branch
      else if !(t.default_branch = "") then some t.default_branch
      else none
    let depthKwarg : Option Nat :=
      match depth with
      | some n => if n = 0 then none else some n
      | none => none
    let authenticated_url := GitOperationsTool._get_authenticated_url t.github_token u
    match env.clone_from authenticated_url d branchKwarg depthKwarg with
    | .ok r =>
      (.ok [("success", .bool true),
            ("message", .str ("Successfully cloned repository to " ++ d)),
            ("repo_path", .str d),
            ("current_branch", .str r.active_branch),
            ("using_token", .bool t.github_token.isSome)],
       { t with repo := some r, repo_path := some d })
    | .error (.gitCommandError m) =>
      (.ok [("success", .bool false),
            ("error", .str ("Failed to clone repository: " ++ m))], t)
    | .error e => (.error e, t)

/-- Oracle for `create_branch`: exceptions raised by
`self.repo.create_head(...)` and by `new_branch.checkout()`, if any. -/
structure BranchEnv where
  create_head_exc : Option PyExc
  checkout_exc : Option PyExc

/-- `GitOperationsTool.create_branch(branch_name, checkout, start_point)`. -/
def GitOperationsTool.create_branch (t : GitOperationsTool) (fs : FsEnv) (env : BranchEnv)
    (branch_name : String) (checkout : Bool) (start_point : Option String) :
    (Except PyExc PyDict) × GitOperationsTool :=
  let t := tryEnsure t fs
  match t.repo with
  | none => (.ok noRepoResult, t)
  | some r =>
    match env.create_head_exc with
    | some (.gitCommandError m) =>
      (.ok [("success", .bool false),
            ("error", .str ("Failed to create branch: " ++ m))], t)
    | some e => (.error e, t)
    | none =>
      let _ := start_point
      let r1 := { r with heads := r.heads ++ [branch_name] }
      match (if checkout then env.checkout_exc else none) with
      | some (.gitCommandError m) =>
        (.ok [("success", .bool false),
              ("error", .str ("Failed to create branch: " ++ m))],
         { t with repo := some r1 })
      | some e => (.error e, { t with repo := some r1 })
      | none =>
        let r2 := if checkout then { r1 with active_branch := branch_name } else r1
        (.ok [("success", .bool true),
              ("message", .str ("Created branch '" ++ branch_name ++ "'")),
              ("branch_name", .str branch_name),
              ("checked_out", .bool checkout),
              ("current_branch", .str r2.active_branch)],
         { t with repo := some r2 })

/-- `GitOperationsTool.checkout_branch(branch_name, create_if_missing)`.
`co_exc` is the exception raised by `self.repo.heads[branch_name].checkout()`,
if any; `env` is passed through to `create_branch` for the
`create_if_missing` delegation. -/
def GitOperationsTool.checkout_branch (t : GitOperationsTool) (fs : FsEnv) (env : BranchEnv)
    (co_exc : Option PyExc) (branch_name : String) (create_if_missing : Bool) :
    (Except PyExc PyDict) × GitOperationsTool :=
  let t := tryEnsure t fs
  match t.repo with
  | none => (.ok noRepoResult, t)
  | some r =>
    if r.heads.contains branch_name then
      match co_exc with
      | some (.gitCommandError m) =>
        (.ok [("success", .bool false),
              ("error", .str ("Failed to checkout branch: " ++ m))], t)
      | some e => (.error e, t)
      | none =>
        let r1 := { r with active_branch := branch_name }
        (.ok [("success", .bool true),
              ("message", .str ("Checked out branch '" ++ branch_name ++ "'")),
              ("current_branch", .str r1.active_branch)],
         { t with repo := some r1 })
    else if create_if_missing then
      GitOperationsTool.create_branch t fs env branch_name true none
    else
      (.ok [("success", .bool false),
            ("error", .str ("Branch '" ++ branch_name ++ "' does not exist"))], t)

/-- Oracle for `stage_files`: exceptions raised by `self.repo.git.add(A=True)`
and by `self.repo.index.add(file_paths)`, if any. -/
structure StageEnv where
  git_add_exc : Option PyExc
  index_add_exc : Option PyExc

/-- `GitOperationsTool.stage_files(file_paths, stage_all)`. -/
def GitOperationsTool.stage_files (t : GitOperationsTool) (fs : FsEnv) (env : StageEnv)
    (file_paths : Option (List String)) (stage_all : Bool) :
    (Except PyExc PyDict) × GitOperationsTool :=
  let t := tryEnsure t fs
  match t.repo with
  | none => (.ok noRepoResult, t)
  | some r =>
    if stage_all then
      match env.git_add_exc with
      | some (.gitCommandError m) =>
        (.ok [("success", .bool false),
              ("error", .str ("Failed to stage files: " ++ m))], t)
      | some e => (.error e, t)
      | none =>
        let r1 := gitAddAll r
        (.ok [("success", .bool true),
              ("message", .str "Staged all files"),
              ("staged_files", .strList r1.diff_head)],
         { t with repo := some r1 })
    else if listTruthy file_paths then
      match env.index_add_exc with
      | some (.gitCommandError m) =>
        (.ok [("success", .bool false),
              ("error", .str ("Failed to stage files: " ++ m))], t)
      | some e => (.error e, t)
      | none =>
        let l := file_paths.getD []
        let r1 := indexAdd r l
        (.ok [("success", .bool true),
              ("message", .str ("Staged " ++ toString l.length ++ " file(s)")),
              ("staged_files", .strList l)],
         { t with repo := some r1 })
    else
      (.ok [("success", .bool false),
            ("error", .str "No files specified and stage_all is False")], t)

/-- `GitOperationsTool.commit(message, author_name, author_email)`.
`index_commit` is the outcome of `self.repo.index.commit(message, **kwargs)`
as a function of the message and the `author` kwarg actually passed (the
`(name, email)` pair when both were supplied, else nothing); GitPython does
not validate the message, so an empty message is a legal argument. -/
def GitOperationsTool.commit (t : GitOperationsTool) (fs : FsEnv)
    (index_commit : String → Option (String × String) → Except PyExc Commit)
    (message : String) (author_name author_email : Option String) :
    (Except PyExc PyDict) × GitOperationsTool :=
  let t := tryEnsure t fs
  match t.repo with
  | none => (.ok noRepoResult, t)
  | some r =>
    let authorKwarg : Option (String × String) :=
      match author_name, author_email with
      | some n, some e => if !(n = "") && !(e = "") then some (n, e) else none
      | _, _ => none
    match index_commit message authorKwarg with
    | .ok c =>
      (.ok [("success", .bool true),
            ("message", .str "Commit created successfully"),
            ("commit_sha", .str c.hexsha),
            ("commit_message", .str message),
            ("author", .str c.author),
            ("committed_date", .str c.committed_datetime_isoformat)],
       { t with repo := some (indexCommitEffect r c) })
    | .error (.gitCommandError m) =>
      (.ok [("success", .bool false),
            ("error", .str ("Failed to commit: " ++ m))], t)
    | .error e => (.error e, t)

/-- One entry of the `PushInfo` list returned by `origin.push(...)`:
`is_error` models `info.flags & info.ERROR != 0`. -/
structure PushInfoItem where
  is_error : Bool
  summary : String
  deriving Repr, DecidableEq

/-- Oracle for `push`: the outcome of `origin.push(branch, **push_kwargs)`. -/
structure PushEnv where
  push_outcome : Except PyExc (List PushInfoItem)

/-- `GitOperationsTool.push(remote, branch, set_upstream, force)`.
Looking up a remote that does not exist (`self.repo.remote(name=remote)`)
raises `ValueError`, which is not a `GitCommandError` and therefore
propagates past the facade. -/
def GitOperationsTool.push (t : GitOperationsTool) (fs : FsEnv) (env : PushEnv)
    (remote : String) (branch : Option String) (set_upstream force : Bool) :
    (Except PyExc PyDict) × GitOperationsTool :=
  let t := tryEnsure t fs
  match t.repo with
  | none => (.ok noRepoResult, t)
  | some r =>
    let _ := (set_upstream, force)
    let branchName := match branch with
      | some b => if b = "" then r.active_branch else b
      | none => r.active_branch
    match
      (if strTruthy t.github_token then
        match r.remotes.lookup remote with
        | none => Except.error (PyExc.valueError ("Remote named '" ++ remote ++ "' did not exist"))
        | some url =>
          Except.ok { r with remotes := r.remotes.map (fun p =>
            if p.1 = remote then
              (p.1, GitOperationsTool._get_authenticated_url t.github_token url)
            else p) }
      else Except.ok r) with
    | .error e => (.error e, t)
    | .ok r1 =>
      match r1.remotes.lookup remote with
      | none =>
        (.error (.valueError ("Remote named '" ++ remote ++ "' did not exist")),
         { t with repo := some r1 })
      | some _ =>
        match env.push_outcome with
        | .error (.gitCommandError m) =>
          (.ok [("success", .bool false),
                ("error", .str ("Failed to push: " ++ m))], { t with repo := some r1 })
        | .error e => (.error e, { t with repo := some r1 })
        | .ok infos =>
          match infos with
          | info :: _ =>
            if info.is_error then
              (.ok [("success", .bool false),
                    ("error", .str ("Push failed: " ++ info.summary))],
               { t with repo := some r1 })
            else
              (.ok [("success", .bool true),
                    ("message", .str ("Pushed to " ++ remote ++ "/" ++ branchName)),
                    ("remote", .str remote),
                    ("branch", .str branchName),
                    ("using_token", .bool t.github_token.isSome)],
               { t with repo := some r1 })
          | [] =>
            (.ok [("success", .bool true),
                  ("message", .str ("Pushed to " ++ remote ++ "/" ++ branchName)),
                  ("remote", .str remote),
                  ("branch", .str branchName),
                  ("using_token", .bool t.github_token.isSome)],
             { t with repo := some r1 })

/-- Oracle for `pull`: the outcome of `origin.pull(...)`. -/
structure PullEnv where
  pull_outcome : Except PyExc Unit

/-- `GitOperationsTool.pull(remote, branch)`. -/
def GitOperationsTool.pull (t : GitOperationsTool) (fs : FsEnv) (env : PullEnv)
    (remote : String) (branch : Option String) :
    (Except PyExc PyDict) × GitOperationsTool :=
  let t := tryEnsure t fs
  match t.repo with
  | none => (.ok noRepoResult, t)
  | some r =>
    let _ := branch
    match
      (if strTruthy t.github_token then
        match r.remotes.lookup remote with
        | none => Except.error (PyExc.valueError ("Remote named '" ++ remote ++ "' did not exist"))
        | some url =>
          Except.ok { r with remotes := r.remotes.map (fun p =>
            if p.1 = remote then
              (p.1, GitOperationsTool._get_authenticated_url t.github_token url)
            else p) }
      else Except.ok r) with
    | .error e => (.error e, t)
    | .ok r1 =>
      match r1.remotes.lookup remote with
      | none =>
        (.error (.valueError ("Remote named '" ++ remote ++ "' did not exist")),
         { t with repo := some r1 })
      | some _ =>
        match env.pull_outcome with
        | .error (.gitCommandError m) =>
          (.ok [("success", .bool false),
                ("error", .str ("Failed to pull: " ++ m))], { t with repo := some r1 })
        | .error e => (.error e, { t with repo := some r1 })
        | .ok _ =>
          (.ok [("success", .bool true),
                ("message", .str ("Pulled from " ++ remote)),
                ("remote", .str remote),
                ("using_token", .bool t.github_token.isSome)],
           { t with repo := some r1 })

/-- `GitOperationsTool.get_status()`.  The `status_exc` oracle is any
exception raised while reading `untracked_files` / `index.diff` /
`is_dirty()` (these run git under the hood); the method catches every
exception class (`except Exception`). -/
def GitOperationsTool.get_status (t : GitOperationsTool) (fs : FsEnv)
    (status_exc : Option PyExc) : (Except PyExc PyDict) × GitOperationsTool :=
  let t := tryEnsure t fs
  match t.repo with
  | none => (.ok noRepoResult, t)
  | some r =>
    match status_exc with
    | some e =>
      (.ok [("success", .bool false),
            ("error", .str ("Failed to get status: " ++ e.message))], t)
    | none =>
      (.ok [("success", .bool true),
            ("current_branch", .str r.active_branch),
            ("untracked_files", .strList r.untracked_files),
            ("modified_files", .strList r.diff_working),
            ("staged_files", .strList r.diff_head),
            ("is_dirty", .bool r.is_dirty)], t)

/-- `GitOperationsTool.get_branches(include_remote)`.  With
`include_remote=True` and no remote named `origin`, `self.repo.remote()`
raises `ValueError`, which the method's `except Exception` turns into an
error record.  `branches_exc` is any other exception raised while reading. -/
def GitOperationsTool.get_branches (t : GitOperationsTool) (fs : FsEnv)
    (branches_exc : Option PyExc) (include_remote : Bool) :
    (Except PyExc PyDict) × GitOperationsTool :=
  let t := tryEnsure t fs
  match t.repo with
  | none => (.ok noRepoResult, t)
  | some r =>
    match branches_exc with
    | some e =>
      (.ok [("success", .bool false),
            ("error", .str ("Failed to get branches: " ++ e.message))], t)
    | none =>
      if include_remote && (r.remotes.lookup "origin").isNone then
        (.ok [("success", .bool false),
              ("error", .str "Failed to get branches: Remote named 'origin' did not exist")], t)
      else
        let base : PyDict :=
          [("success", .bool true),
           ("current_branch", .str r.active_branch),
           ("local_branches", .strList r.heads)]
        if include_remote then
          (.ok (base ++ [("remote_branches", .strList r.remote_refs)]), t)
        else
          (.ok base, t)

/-- The dict appended to `commit_list` for one commit inside
`get_commit_history`: full id, first seven characters as the short id,
stripped message, author string, ISO-8601 committed timestamp. -/
def mkCommitEntry (c : Commit) : CommitEntry :=
  { sha := c.hexsha
    short_sha := c.hexsha.take 7
    message := pyStrip c.message
    author := c.author
    date := c.committed_datetime_isoformat }

/-- `GitOperationsTool.get_commit_history(max_count, branch)`.  A falsy
`branch` argument (absent or `""`) walks from the current head
(`iter_commits(max_count=...)`); otherwise from the given rev.  `iter_exc` is
any exception raised by the walk, caught by `except Exception`. -/
def GitOperationsTool.get_commit_history (t : GitOperationsTool) (fs : FsEnv)
    (iter_exc : Option PyExc) (max_count : Nat) (branch : Option String) :
    (Except PyExc PyDict) × GitOperationsTool :=
  let t := tryEnsure t fs
  match t.repo with
  | none => (.ok noRepoResult, t)
  | some r =>
    match iter_exc with
    | some e =>
      (.ok [("success", .bool false),
            ("error", .str ("Failed to get commit history: " ++ e.message))], t)
    | none =>
      let ancestry := match branch with
        | some b => if b = "" then r.commits else r.branch_commits b
        | none => r.commits
      let commit_list := (ancestry.take max_count).map mkCommitEntry
      (.ok [("success", .bool true),
            ("commits", .commitList commit_list),
            ("count", .nat commit_list.length)], t)

/-- `GitOperationsTool.add_remote(name, url)`.  `create_remote_exc` is the
exception raised by `self.repo.create_remote(name, url)`, if any (a duplicate
name makes git fail, surfacing as `GitCommandError`). -/
def GitOperationsTool.add_remote (t : GitOperationsTool) (fs : FsEnv)
    (create_remote_exc : Option PyExc) (name url : String) :
    (Except PyExc PyDict) × GitOperationsTool :=
  let t := tryEnsure t fs
  match t.repo with
  | none => (.ok noRepoResult, t)
  | some r =>
    match create_remote_exc with
    | some (.gitCommandError m) =>
      (.ok [("success", .bool false),
            ("error", .str ("Failed to add remote: " ++ m))], t)
    | some e => (.error e, t)
    | none =>
      let r1 := { r with remotes := r.remotes ++ [(name, url)] }
      (.ok [("success", .bool true),
            ("message", .str ("Added remote '" ++ name ++ "' with URL '" ++ url ++ "'"))],
       { t with repo := some r1 })

/-- `GitOperationsTool.get_diff(cached, file_path)`.  A falsy `file_path`
(absent or `""`) requests the whole-tree diff.  `diff_exc` is the exception
raised by `self.repo.git.diff(...)`, if any. -/
def GitOperationsTool.get_diff (t : GitOperationsTool) (fs : FsEnv)
    (diff_exc : Option PyExc) (cached : Bool) (file_path : Option String) :
    (Except PyExc PyDict) × GitOperationsTool :=
  let t := tryEnsure t fs
  match t.repo with
  | none => (.ok noRepoResult, t)
  | some r =>
    match diff_exc with
    | some (.gitCommandError m) =>
      (.ok [("success", .bool false),
            ("error", .str ("Failed to get diff: " ++ m))], t)
    | some e => (.error e, t)
    | none =>
      let pathArg : Option String := if strTruthy file_path then file_path else none
      (.ok [("success", .bool true),
            ("diff", .str (r.git_diff cached pathArg))], t)

/-! ## General lemmas about the embedding -/

/-! ## Derived definitions and concrete fixtures: auxiliary predicates used
by the statements below, and the concrete repository states, facade states
and oracles at which witnesses and counterexamples evaluate the model. -/

/-- Decidable test that `pat` occurs as a contiguous subsequence of `s`. -/
def containsSeq (pat : List Char) : List Char → Bool
  | [] => pat.isEmpty
  | c :: rest => pat.isPrefixOf (c :: rest) || containsSeq pat rest

/-- The facade is in the stuck unbound state: no bound repository and the
lazy reopen attempt does not yield one. -/
def unboundStuck (t : GitOperationsTool) (fs : FsEnv) : Prop :=
  t.repo = none ∧ (t._ensure_repo_loaded fs).1 = false

/-- A filesystem on which no path exists. -/
def fs0 : FsEnv := { path_exists := fun _ => false, open_repo := fun _ => none }

/-- A filesystem on which every path exists but none is a valid repository. -/
def fsInvalid : FsEnv := { path_exists := fun _ => true, open_repo := fun _ => none }

/-- A clean repository state: one branch `main`, nothing untracked, modified
or staged, empty history. -/
def r0 : RepoState :=
  { active_branch := "main", untracked_files := [], diff_working := [],
    diff_head := [], heads := ["main"], commits := [],
    branch_commits := fun _ => [], remotes := [], remote_refs := [],
    git_diff := fun _ _ => "" }

/-- An unbound facade with no configuration at all. -/
def t0 : GitOperationsTool :=
  { repo_path := none, github_token := none, default_repo_url := none,
    default_branch := "main", repo := none }

/-- A facade bound to the given repository state. -/
def tBound (r : RepoState) : GitOperationsTool := { t0 with repo := some r }

/-- Empty environment-variable set. -/
def envVars0 : EnvVars :=
  { git_repo_path := none, github_token := none, git_repo_url := none,
    git_default_branch := none }

/-- Stage oracle where no library call raises. -/
def stageEnv0 : StageEnv := { git_add_exc := none, index_add_exc := none }

/-- Branch oracle where no library call raises. -/
def branchEnv0 : BranchEnv := { create_head_exc := none, checkout_exc := none }

/-- A 40-character lowercase hex commit id used in concrete runs. -/
def shaA : String := "0123456789abcdef0123456789abcdef01234567"

/-- A concrete commit object returned by the `index.commit` oracle. -/
def cA : Commit :=
  { hexsha := shaA, message := "msg", author := "Alice <alice@example.com>",
    committed_datetime_isoformat := "2024-01-01T00:00:00+00:00" }

/-- `index.commit` oracle that always succeeds with `cA` (GitPython performs
no validation of the message, so this models a commit on a repository where
the object write succeeds). -/
def icA : String → Option (String × String) → Except PyExc Commit :=
  fun _ _ => .ok cA

/-- A repository whose only deviation from a fresh commit is one untracked
file. -/
def rUntracked : RepoState := { r0 with untracked_files := ["notes.txt"] }

/-- Clone oracle in which the underlying clone fails with a
`GitCommandError`. -/
def cloneEnvFail : CloneEnv :=
  { clone_from := fun _ _ _ _ => .error (.gitCommandError "remote hung up") }

/-- Clone oracle in which the underlying clone raises an exception class the
facade does not catch. -/
def cloneEnvRaise : CloneEnv :=
  { clone_from := fun _ _ _ _ => .error (.otherError "boom") }

/-- A repository with one untracked, one modified-but-unstaged and one staged
path. -/
def rMixed : RepoState :=
  { r0 with untracked_files := ["a.txt"], diff_working := ["b.txt"],
            diff_head := ["c.txt"] }

/-- A repository whose head ancestry holds five commits. -/
def r5 : RepoState := { r0 with commits := [cA, cA, cA, cA, cA] }

/-- The result dict built by `commit` on success, as a function of the commit
object returned by the library and the message argument. -/
def commitRecord (c : Commit) (msg : String) : PyDict :=
  [("success", .bool true),
   ("message", .str "Commit created successfully"),
   ("commit_sha", .str c.hexsha),
   ("commit_message", .str msg),
   ("author", .str c.author),
   ("committed_date", .str c.committed_datetime_isoformat)]

/-- Lowercase hex digit test, for the `^[0-9a-f]{40}$` commit id format. -/
def isHexDigit (c : Char) : Bool := "0123456789abcdef".data.contains c

/-- `index.commit` oracle that fails with git's `GitCommandError`. -/
def icFail : String → Option (String × String) → Except PyExc Commit :=
  fun _ _ => .error (.gitCommandError "nothing to commit")

/-- Well-formedness of one operation result: whenever a record is returned
whose `success` field is `False`, its `error` field is a populated (non-empty)
string. -/
def wfResult (res : (Except PyExc PyDict) × GitOperationsTool) : Prop :=
  ∀ d, res.1 = .ok d → d.lookup "success" = some (.bool false) →
    ∃ s, d.lookup "error" = some (.str s) ∧ s ≠ ""

/-- Two strings with the same character data are equal. -/
theorem stringDataEq {s t : String} (h : s.data = t.data) : s = t := by
  cases s; cases t; exact congrArg String.mk h

/-- Appending to a non-empty string yields a non-empty string. -/
theorem append_ne_empty_left {p : String} (m : String) (hp : p.length ≠ 0) :
    p ++ m ≠ "" := by
  intro h
  have hlen : (p ++ m).length = 0 := by rw [h]; rfl
  rw [String.length_append] at hlen
  omega

/-- A string of the shape `p ++ m ++ q` with `p` non-empty is non-empty. -/
theorem append3_ne_empty (p m q : String) (hp : p.length ≠ 0) :
    p ++ m ++ q ≠ "" := by
  intro h
  have hlen : (p ++ m ++ q).length = 0 := by rw [h]; rfl
  rw [String.length_append, String.length_append] at hlen
  omega

/-- A list is a `isPrefixOf`-prefix of itself followed by anything. -/
theorem isPrefixOf_self_append (l t : List Char) : l.isPrefixOf (l ++ t) = true := by
  induction l with
  | nil => simp [List.isPrefixOf]
  | cons a as ih => simp [List.isPrefixOf, ih]

/-- When the pattern does not occur in `s`, `pyReplaceAux` leaves `s`
unchanged, whatever the fuel. -/
theorem pyReplaceAux_no_occurrence (old new : List Char) :
    ∀ (fuel : Nat) (s : List Char), containsSeq old s = false →
      pyReplaceAux old new fuel s = s := by
  intro fuel
  induction fuel with
  | zero => intro s _; cases s <;> rfl
  | succ f ih =>
    intro s h
    cases s with
    | nil => rfl
    | cons c rest =>
      have h' := h
      unfold containsSeq at h'
      rw [Bool.or_eq_false_iff] at h'
      rw [pyReplaceAux, if_neg, ih rest h'.2]
      rintro ⟨-, hpre⟩
      rw [h'.1] at hpre
      exact Bool.false_ne_true hpre

/-- Replacing `old` in `old ++ t`, when `old` is non-empty and does not occur
in `t`, rewrites exactly the leading occurrence. -/
theorem pyReplaceAux_single (old new t : List Char) (hne : old ≠ [])
    (hni : containsSeq old t = false) :
    pyReplaceAux old new (old ++ t).length (old ++ t) = new ++ t := by
  cases old with
  | nil => exact absurd rfl hne
  | cons a as =>
    have hcons : (a :: as) ++ t = a :: (as ++ t) := rfl
    rw [hcons]
    have hlen : (a :: (as ++ t)).length = (as ++ t).length + 1 := by simp
    rw [hlen, pyReplaceAux]
    rw [if_pos ⟨hne, by rw [← hcons]; exact isPrefixOf_self_append (a :: as) t⟩]
    have hdrop : (a :: (as ++ t)).drop (a :: as).length = t := by
      rw [← hcons]
      exact List.drop_left (a :: as) t
    rw [hdrop, pyReplaceAux_no_occurrence (a :: as) new _ t hni]

/-- String-level version: `(old ++ t).replace(old, new) = new ++ t` when the
non-empty pattern `old` does not occur in `t`. -/
theorem pyReplace_single (old new t : String) (hne : old.data ≠ [])
    (hni : containsSeq old.data t.data = false) :
    pyReplace (old ++ t) old new = new ++ t := by
  apply stringDataEq
  show pyReplaceAux old.data new.data (old.data ++ t.data).length (old.data ++ t.data) =
    new.data ++ t.data
  exact pyReplaceAux_single old.data new.data t.data hne hni

/-- `pyStartsWith (p ++ t) p` always holds. -/
theorem pyStartsWith_append (p t : String) : pyStartsWith (p ++ t) p = true :=
  isPrefixOf_self_append p.data t.data

/-- An HTTPS GitHub URL does not start with the SSH prefix. -/
theorem https_not_ssh (rest : String) :
    pyStartsWith ("https://github.com/" ++ rest) "git@github.com:" = false := by
  show List.isPrefixOf "git@github.com:".data ("https://github.com/" ++ rest).data = false
  rw [ show "git@github.com:".data = 'g' :: "it@github.com:".data from rfl]
  rw [ show ("https://github.com/" ++ rest).data =
    'h' :: ("ttps://github.com/".data ++ rest.data) from rfl]
  rw [ show List.isPrefixOf ('g' :: "it@github.com:".data)
      ('h' :: ("ttps://github.com/".data ++ rest.data)) =
    (('g' == 'h') && List.isPrefixOf "it@github.com:".data
      ("ttps://github.com/".data ++ rest.data)) from rfl]
  rw [ show ('g' == 'h') = false from rfl, Bool.false_and]

/-- When the lazy reopen attempt reports failure, it leaves the facade
unchanged. -/
theorem ensure_failed_eq {t : GitOperationsTool} {fs : FsEnv}
    (h : (t._ensure_repo_loaded fs).1 = false) :
    (t._ensure_repo_loaded fs).2 = t := by
  revert h
  unfold GitOperationsTool._ensure_repo_loaded
  split
  · split
    · split
      · intro h; exact absurd h (by simp)
      · intro _; rfl
    · intro _; rfl
  · intro _; rfl

/-- A stuck unbound facade passes the operation prelude unchanged. -/
theorem tryEnsure_stuck {t : GitOperationsTool} {fs : FsEnv}
    (h : unboundStuck t fs) : tryEnsure t fs = t := by
  unfold tryEnsure
  rw [h.1]
  simpa using ensure_failed_eq h.2

/-- A bound facade passes the operation prelude unchanged. -/
theorem tryEnsure_bound {t : GitOperationsTool} {fs : FsEnv} {r : RepoState}
    (h : t.repo = some r) : tryEnsure t fs = t := by
  unfold tryEnsure
  rw [h]
  rfl

/-! ## C5 — fail-fast on an unbound facade -/

/-- C5: every operation other than clone and construction, called while no
repository handle is bound, makes the single lazy reopen attempt, and when
that attempt yields no binding it returns `success=false` with the
`No repository loaded` error record, leaving the facade state unchanged and
performing no part of the operation; when instead the reopen attempt binds a
repository, the operation proceeds against the reopened state (shown here for
`get_status`). -/
theorem C5_theorem :
    ∀ (t : GitOperationsTool) (fs : FsEnv), unboundStuck t fs →
      (∀ env bn co sp, t.create_branch fs env bn co sp = (.ok noRepoResult, t)) ∧
      (∀ env ce bn cim, t.checkout_branch fs env ce bn cim = (.ok noRepoResult, t)) ∧
      (∀ env fp sa, t.stage_files fs env fp sa = (.ok noRepoResult, t)) ∧
      (∀ ic m an ae, t.commit fs ic m an ae = (.ok noRepoResult, t)) ∧
      (∀ env rm br su fo, t.push fs env rm br su fo = (.ok noRepoResult, t)) ∧
      (∀ env rm br, t.pull fs env rm br = (.ok noRepoResult, t)) ∧
      (∀ se, t.get_status fs se = (.ok noRepoResult, t)) ∧
      (∀ be ir, t.get_branches fs be ir = (.ok noRepoResult, t)) ∧
      (∀ ie mc br, t.get_commit_history fs ie mc br = (.ok noRepoResult, t)) ∧
      (∀ ce nm u, t.add_remote fs ce nm u = (.ok noRepoResult, t)) ∧
      (∀ de ca fp, t.get_diff fs de ca fp = (.ok noRepoResult, t)) := by
  intro t fs h
  have ht := tryEnsure_stuck h
  refine ⟨?_, ?_, ?_, ?_, ?_, ?_, ?_, ?_, ?_, ?_, ?_⟩
  · intro env bn co sp; simp only [GitOperationsTool.create_branch, ht, h.1]
  · intro env ce bn cim; simp only [GitOperationsTool.checkout_branch, ht, h.1]
  · intro env fp sa; simp only [GitOperationsTool.stage_files, ht, h.1]
  · intro ic m an ae; simp only [GitOperationsTool.commit, ht, h.1]
  · intro env rm br su fo; simp only [GitOperationsTool.push, ht, h.1]
  · intro env rm br; simp only [GitOperationsTool.pull, ht, h.1]
  · intro se; simp only [GitOperationsTool.get_status, ht, h.1]
  · intro be ir; simp only [GitOperationsTool.get_branches, ht, h.1]
  · intro ie mc br; simp only [GitOperationsTool.get_commit_history, ht, h.1]
  · intro ce nm u; simp only [GitOperationsTool.add_remote, ht, h.1]
  · intro de ca fp; simp only [GitOperationsTool.get_diff, ht, h.1]

/-- Witness for C5 at the concrete unbound facade `t0` over the empty
filesystem: every operation returns the `No repository loaded` record. -/
theorem C5_witness :
    t0.create_branch fs0 branchEnv0 "b" true none = (.ok noRepoResult, t0) ∧
    t0.checkout_branch fs0 branchEnv0 none "b" false = (.ok noRepoResult, t0) ∧
    t0.stage_files fs0 stageEnv0 none true = (.ok noRepoResult, t0) ∧
    t0.commit fs0 icA "m" none none = (.ok noRepoResult, t0) ∧
    t0.push fs0 ⟨.ok []⟩ "origin" none false false = (.ok noRepoResult, t0) ∧
    t0.pull fs0 ⟨.ok ()⟩ "origin" none = (.ok noRepoResult, t0) ∧
    t0.get_status fs0 none = (.ok noRepoResult, t0) ∧
    t0.get_branches fs0 none false = (.ok noRepoResult, t0) ∧
    t0.get_commit_history fs0 none 10 none = (.ok noRepoResult, t0) ∧
    t0.add_remote fs0 none "origin" "u" = (.ok noRepoResult, t0) ∧
    t0.get_diff fs0 none false none = (.ok noRepoResult, t0) := by
  have H := C5_theorem t0 fs0 ⟨rfl, rfl⟩
  exact ⟨H.1 _ _ _ _, H.2.1 _ _ _ _, H.2.2.1 _ _ _, H.2.2.2.1 _ _ _ _,
    H.2.2.2.2.1 _ _ _ _ _, H.2.2.2.2.2.1 _ _ _, H.2.2.2.2.2.2.1 _,
    H.2.2.2.2.2.2.2.1 _ _, H.2.2.2.2.2.2.2.2.1 _ _ _,
    H.2.2.2.2.2.2.2.2.2.1 _ _ _, H.2.2.2.2.2.2.2.2.2.2 _ _ _⟩

/-! ## C10 — empty explicit path list behaves like no path list -/

/-- C10: `stage_files` with an explicitly supplied empty list and
`stage_all=False` is exactly the call with no path list at all: it stages
nothing and, on a bound repository, returns the same `success=false`
`No files specified` failure record. -/
theorem C10_theorem :
    (∀ (t : GitOperationsTool) (fs : FsEnv) (env : StageEnv),
      t.stage_files fs env (some []) false = t.stage_files fs env none false) ∧
    (∀ (t : GitOperationsTool) (fs : FsEnv) (env : StageEnv) (r : RepoState),
      t.repo = some r →
      t.stage_files fs env (some []) false =
        (.ok [("success", .bool false),
              ("error", .str "No files specified and stage_all is False")], t)) := by
  constructor
  · intro t fs env
    unfold GitOperationsTool.stage_files
    cases (tryEnsure t fs).repo with
    | none => rfl
    | some r => rfl
  · intro t fs env r h
    simp only [GitOperationsTool.stage_files, tryEnsure_bound h, h]
    rfl

/-- Witness for C10 on a bound facade over the clean repository `r0`. -/
theorem C10_witness :
    (tBound r0).stage_files fs0 stageEnv0 (some []) false =
      (.ok [("success", .bool false),
            ("error", .str "No files specified and stage_all is False")], tBound r0) ∧
    (tBound r0).stage_files fs0 stageEnv0 (some []) false =
      (tBound r0).stage_files fs0 stageEnv0 none false :=
  ⟨C10_theorem.2 (tBound r0) fs0 stageEnv0 r0 rfl, C10_theorem.1 (tBound r0) fs0 stageEnv0⟩

/-! ## C3 — get_status report and the meaning of is_dirty -/

/-- C3 (amended): on a bound repository, `get_status` returns success with
the active branch name, the untracked set, the modified-but-unstaged set
(index vs. working tree), the staged set (index vs. HEAD), and `is_dirty`,
which is true iff the staged or the modified-but-unstaged set is non-empty;
untracked files do not affect `is_dirty` (GitPython's `is_dirty()` default
excludes them).  The facade state is unchanged. -/
theorem C3_theorem :
    ∀ (t : GitOperationsTool) (fs : FsEnv) (r : RepoState), t.repo = some r →
      (t.get_status fs none).1 =
        .ok [("success", .bool true),
             ("current_branch", .str r.active_branch),
             ("untracked_files", .strList r.untracked_files),
             ("modified_files", .strList r.diff_working),
             ("staged_files", .strList r.diff_head),
             ("is_dirty", .bool r.is_dirty)] ∧
      (t.get_status fs none).2 = t ∧
      (r.is_dirty = true ↔ (r.diff_head ≠ [] ∨ r.diff_working ≠ [])) := by
  intro t fs r h
  refine ⟨?_, ?_, ?_⟩
  · simp only [GitOperationsTool.get_status, tryEnsure_bound h, h]
  · simp only [GitOperationsTool.get_status, tryEnsure_bound h, h]
  · unfold RepoState.is_dirty
    cases r.diff_head <;> cases r.diff_working <;> simp

/-- Witness for C3 on the clean repository `r0`: all three sets empty and
`is_dirty = false`. -/
theorem C3_witness :
    ((tBound r0).get_status fs0 none).1 =
      .ok [("success", .bool true),
           ("current_branch", .str r0.active_branch),
           ("untracked_files", .strList r0.untracked_files),
           ("modified_files", .strList r0.diff_working),
           ("staged_files", .strList r0.diff_head),
           ("is_dirty", .bool r0.is_dirty)] ∧
    ((tBound r0).get_status fs0 none).2 = tBound r0 ∧
    (r0.is_dirty = true ↔ (r0.diff_head ≠ [] ∨ r0.diff_working ≠ [])) :=
  C3_theorem (tBound r0) fs0 r0 rfl

/-- Counterexample to C3 as stated: with a single untracked file and nothing
modified or staged, `get_status` reports the file in `untracked_files` but
`is_dirty = false`, so `is_dirty` is NOT true whenever one of the three sets
is non-empty. -/
theorem C3_counterexample :
    ((tBound rUntracked).get_status fs0 none).1 =
      .ok [("success", .bool true),
           ("current_branch", .str "main"),
           ("untracked_files", .strList ["notes.txt"]),
           ("modified_files", .strList []),
           ("staged_files", .strList []),
           ("is_dirty", .bool false)] := rfl

/-! ## C6 — a failing clone leaves the facade unchanged -/

/-- C6: every failing `clone_repository` call — missing url, missing
destination, or any failure of the underlying clone (whether converted to an
error record or propagated as an exception) — leaves the facade state,
including the bound handle and stored path, exactly as it was. -/
theorem C6_theorem :
    ∀ (t : GitOperationsTool) (env : CloneEnv) (ru dp br : Option String) (de : Option Nat),
      (∀ d, (t.clone_repository env ru dp br de).1 = .ok d →
        d.lookup "success" = some (.bool false) →
        (t.clone_repository env ru dp br de).2 = t) ∧
      (∀ e, (t.clone_repository env ru dp br de).1 = .error e →
        (t.clone_repository env ru dp br de).2 = t) := by
  intro t env ru dp br de
  unfold GitOperationsTool.clone_repository
  dsimp only
  constructor
  · intro d
    split
    · intro _ _; rfl
    · split
      · intro _ _; rfl
      · split
        · intro hd hs
          injection hd with hd
          subst hd
          simp [List.lookup] at hs
        · intro _ _; rfl
        · intro hd _; cases hd
  · intro e
    split
    · intro hd; cases hd
    · split
      · intro hd; cases hd
      · split
        · intro hd; cases hd
        · intro hd; cases hd
        · intro _; rfl

/-- Witness for C6: at concrete failing clone calls (underlying failure
converted to a record, underlying exception propagated, and missing url) the
facade state is exactly the prior one. -/
theorem C6_witness :
    (t0.clone_repository cloneEnvFail (some "u") (some "d") none none).2 = t0 ∧
    (t0.clone_repository cloneEnvRaise (some "u") (some "d") none none).2 = t0 ∧
    (t0.clone_repository cloneEnvFail none none none none).2 = t0 := by
  refine ⟨?_, ?_, ?_⟩
  · exact (C6_theorem t0 cloneEnvFail (some "u") (some "d") none none).1
      [("success", .bool false),
       ("error", .str ("Failed to clone repository: " ++ "remote hung up"))] rfl rfl
  · exact (C6_theorem t0 cloneEnvRaise (some "u") (some "d") none none).2
      (.otherError "boom") rfl
  · exact (C6_theorem t0 cloneEnvFail none none none none).1
      [("success", .bool false),
       ("error", .str "No repository URL provided and GIT_REPO_URL not set in environment")]
      rfl rfl

/-! ## C7 — stage_files semantics -/

/-- C7: with `stage_all=True`, `stage_files` stages every modified and
untracked path (the resulting state has both sets empty and all their paths
in the index-vs-HEAD set) and reports as the staged set the index-vs-HEAD
diff computed after staging; with `stage_all=False` and an explicit non-empty
path list it stages exactly those paths and echoes the list back; with
`stage_all=False` and no non-empty path list it performs no staging and
returns the `No files specified` failure record. -/
theorem C7_theorem :
    ∀ (t : GitOperationsTool) (fs : FsEnv) (r : RepoState), t.repo = some r →
      (∀ fp, t.stage_files fs stageEnv0 fp true =
          (.ok [("success", .bool true),
                ("message", .str "Staged all files"),
                ("staged_files", .strList (gitAddAll r).diff_head)],
           { t with repo := some (gitAddAll r) }) ∧
        (∀ p, p ∈ r.diff_working ∨ p ∈ r.untracked_files →
          p ∈ (gitAddAll r).diff_head) ∧
        (gitAddAll r).diff_working = [] ∧ (gitAddAll r).untracked_files = []) ∧
      (∀ l : List String, l ≠ [] →
        t.stage_files fs stageEnv0 (some l) false =
          (.ok [("success", .bool true),
                ("message", .str ("Staged " ++ toString l.length ++ " file(s)")),
                ("staged_files", .strList l)],
           { t with repo := some (indexAdd r l) }) ∧
        (∀ p, p ∈ l → p ∈ (indexAdd r l).diff_head)) ∧
      (∀ fp, listTruthy fp = false →
        t.stage_files fs stageEnv0 fp false =
          (.ok [("success", .bool false),
                ("error", .str "No files specified and stage_all is False")], t)) := by
  intro t fs r h
  refine ⟨?_, ?_, ?_⟩
  · intro fp
    refine ⟨?_, ?_, rfl, rfl⟩
    · simp only [GitOperationsTool.stage_files, tryEnsure_bound h, h]
      rfl
    · intro p hp
      simp only [gitAddAll, List.mem_append]
      rcases hp with hp | hp
      · exact Or.inl (Or.inr hp)
      · exact Or.inr hp
  · intro l hl
    have hT : listTruthy (some l) = true := by
      cases l with
      | nil => exact absurd rfl hl
      | cons a as => rfl
    constructor
    · simp only [GitOperationsTool.stage_files, tryEnsure_bound h, h, hT]
      rfl
    · intro p hp
      simp only [indexAdd, List.mem_append, List.mem_filter]
      by_cases hd : p ∈ r.diff_head
      · exact Or.inl hd
      · exact Or.inr ⟨hp, by simp [hd]⟩
  · intro fp hfp
    simp only [GitOperationsTool.stage_files, tryEnsure_bound h, h, hfp]
    rfl

/-- Witness for C7 on the mixed repository `rMixed`: `stage_all=True` stages
`a.txt` and `b.txt` alongside `c.txt`; an explicit list is echoed back; no
selection yields the failure record. -/
theorem C7_witness :
    ((tBound rMixed).stage_files fs0 stageEnv0 none true =
        (.ok [("success", .bool true),
              ("message", .str "Staged all files"),
              ("staged_files", .strList (gitAddAll rMixed).diff_head)],
         { tBound rMixed with repo := some (gitAddAll rMixed) }) ∧
      (∀ p, p ∈ rMixed.diff_working ∨ p ∈ rMixed.untracked_files →
        p ∈ (gitAddAll rMixed).diff_head) ∧
      (gitAddAll rMixed).diff_working = [] ∧ (gitAddAll rMixed).untracked_files = []) ∧
    ((tBound rMixed).stage_files fs0 stageEnv0 (some ["a.txt"]) false =
        (.ok [("success", .bool true),
              ("message", .str ("Staged " ++ toString ["a.txt"].length ++ " file(s)")),
              ("staged_files", .strList ["a.txt"])],
         { tBound rMixed with repo := some (indexAdd rMixed ["a.txt"]) }) ∧
      (∀ p, p ∈ ["a.txt"] → p ∈ (indexAdd rMixed ["a.txt"]).diff_head)) ∧
    ((tBound rMixed).stage_files fs0 stageEnv0 none false =
      (.ok [("success", .bool false),
            ("error", .str "No files specified and stage_all is False")], tBound rMixed)) := by
  have H := C7_theorem (tBound rMixed) fs0 rMixed rfl
  exact ⟨H.1 none, H.2.1 ["a.txt"] (by simp), H.2.2 none rfl⟩

/-! ## C8 — commit history -/

/-- C8: on a bound repository, `get_commit_history(max_count, branch)` walks
the reverse-chronological ancestry of the chosen start (the `branch` argument
when truthy, else the current head), materializes the first
`min(max_count, n)` commits into a list of entries, and each entry carries
the full id, a short id equal to the first seven characters of the full id,
the stripped message, the author string and the ISO-8601 committed
timestamp. -/
theorem C8_theorem :
    ∀ (t : GitOperationsTool) (fs : FsEnv) (r : RepoState) (mc : Nat)
      (br : Option String), t.repo = some r →
      ∀ ancestry : List Commit,
        ancestry = (match br with
          | some b => if b = "" then r.commits else r.branch_commits b
          | none => r.commits) →
      (t.get_commit_history fs none mc br).1 =
        .ok [("success", .bool true),
             ("commits", .commitList ((ancestry.take mc).map mkCommitEntry)),
             ("count", .nat ((ancestry.take mc).map mkCommitEntry).length)] ∧
      ((ancestry.take mc).map mkCommitEntry).length = min mc ancestry.length ∧
      (∀ e ∈ (ancestry.take mc).map mkCommitEntry,
        e.short_sha = e.sha.take 7) := by
  intro t fs r mc br h ancestry ha
  refine ⟨?_, ?_, ?_⟩
  · subst ha
    simp only [GitOperationsTool.get_commit_history, tryEnsure_bound h, h]
  · rw [List.length_map, List.length_take]
  · intro e he
    obtain ⟨c, -, hc⟩ := List.mem_map.mp he
    subst hc
    simp only [mkCommitEntry]

/-- Witness for C8: `max_count=3` on a five-commit history yields exactly
three entries, `max_count=10` yields five; short ids are seven characters. -/
theorem C8_witness :
    (((tBound r5).get_commit_history fs0 none 3 none).1 =
        .ok [("success", .bool true),
             ("commits", .commitList ((r5.commits.take 3).map mkCommitEntry)),
             ("count", .nat ((r5.commits.take 3).map mkCommitEntry).length)] ∧
      ((r5.commits.take 3).map mkCommitEntry).length = min 3 r5.commits.length ∧
      (∀ e ∈ (r5.commits.take 3).map mkCommitEntry, e.short_sha = e.sha.take 7)) ∧
    (((tBound r5).get_commit_history fs0 none 10 none).1 =
        .ok [("success", .bool true),
             ("commits", .commitList ((r5.commits.take 10).map mkCommitEntry)),
             ("count", .nat ((r5.commits.take 10).map mkCommitEntry).length)] ∧
      ((r5.commits.take 10).map mkCommitEntry).length = min 10 r5.commits.length ∧
      (∀ e ∈ (r5.commits.take 10).map mkCommitEntry, e.short_sha = e.sha.take 7)) :=
  ⟨C8_theorem (tBound r5) fs0 r5 3 none rfl r5.commits rfl,
   C8_theorem (tBound r5) fs0 r5 10 none rfl r5.commits rfl⟩

/-! ## C4 and C9 — the commit operation -/

/-- C4 (amended): a successful `commit` on a bound repository returns a
record carrying the full commit identifier (the library's 40-character
lowercase hex hash), the canonical author string and the ISO-8601 timestamp —
but no short form of the identifier: the record's keys are exactly
`success, message, commit_sha, commit_message, author, committed_date`, and
`short_sha` appears only in `get_commit_history` entries. -/
theorem C4_theorem :
    ∀ (t : GitOperationsTool) (fs : FsEnv) (r : RepoState)
      (ic : String → Option (String × String) → Except PyExc Commit)
      (c : Commit) (msg : String) (an ae : Option String),
      t.repo = some r →
      (∀ m a, ic m a = .ok c) →
      c.hexsha.length = 40 →
      (∀ ch ∈ c.hexsha.data, isHexDigit ch = true) →
      (t.commit fs ic msg an ae).1 = .ok (commitRecord c msg) ∧
      (∃ s, (commitRecord c msg).lookup "commit_sha" = some (.str s) ∧
        s.length = 40 ∧ (∀ ch ∈ s.data, isHexDigit ch = true)) ∧
      (commitRecord c msg).lookup "author" = some (.str c.author) ∧
      (commitRecord c msg).lookup "committed_date" =
        some (.str c.committed_datetime_isoformat) ∧
      (commitRecord c msg).lookup "short_sha" = none ∧
      (commitRecord c msg).map Prod.fst =
        ["success", "message", "commit_sha", "commit_message", "author",
         "committed_date"] := by
  intro t fs r ic c msg an ae h hic h40 hhex
  refine ⟨?_, ⟨c.hexsha, rfl, h40, hhex⟩, rfl, rfl, rfl, rfl⟩
  simp only [GitOperationsTool.commit, tryEnsure_bound h, h, hic]
  rfl

/-- Witness for C4 at the concrete commit `cA`. -/
theorem C4_witness :
    ((tBound r0).commit fs0 icA "msg" none none).1 = .ok (commitRecord cA "msg") ∧
    (∃ s, (commitRecord cA "msg").lookup "commit_sha" = some (.str s) ∧
      s.length = 40 ∧ (∀ ch ∈ s.data, isHexDigit ch = true)) ∧
    (commitRecord cA "msg").lookup "author" = some (.str cA.author) ∧
    (commitRecord cA "msg").lookup "committed_date" =
      some (.str cA.committed_datetime_isoformat) ∧
    (commitRecord cA "msg").lookup "short_sha" = none ∧
    (commitRecord cA "msg").map Prod.fst =
      ["success", "message", "commit_sha", "commit_message", "author",
       "committed_date"] :=
  C4_theorem (tBound r0) fs0 r0 icA cA "msg" none none rfl (fun _ _ => rfl)
    (by decide) (by decide)

/-- Counterexample to C4 as stated: the record returned by a successful
`commit` contains no short form of the identifier — there is no `short_sha`
key, and no value in the record equals the first seven characters of the
returned commit id. -/
theorem C4_counterexample :
    ((tBound r0).commit fs0 icA "msg" none none).1 = .ok (commitRecord cA "msg") ∧
    (commitRecord cA "msg").lookup "short_sha" = none ∧
    ((commitRecord cA "msg").all
      (fun kv => decide (kv.2 ≠ PyVal.str (shaA.take 7)))) = true :=
  ⟨rfl, rfl, by decide⟩

/-- C9 (amended): `commit` does not validate its message: any message,
including the empty string, is passed to the library unchanged; when the
library succeeds the commit is created (the returned record reports
`success=true` and the new commit becomes the head of the ancestry), and a
library `GitCommandError` (e.g. nothing staged) is returned as a
`success=false` record with the `Failed to commit:` error text. -/
theorem C9_theorem :
    ∀ (t : GitOperationsTool) (fs : FsEnv) (r : RepoState)
      (msg : String) (an ae : Option String),
      t.repo = some r →
      (∀ (ic : String → Option (String × String) → Except PyExc Commit) (c : Commit),
        (∀ m a, ic m a = .ok c) →
        (t.commit fs ic msg an ae).1 = .ok (commitRecord c msg) ∧
        (t.commit fs ic msg an ae).2 =
          { t with repo := some (indexCommitEffect r c) } ∧
        (indexCommitEffect r c).commits = c :: r.commits) ∧
      (∀ (ic : String → Option (String × String) → Except PyExc Commit) (em : String),
        (∀ m a, ic m a = .error (.gitCommandError em)) →
        t.commit fs ic msg an ae =
          (.ok [("success", .bool false),
                ("error", .str ("Failed to commit: " ++ em))], t)) := by
  intro t fs r msg an ae h
  constructor
  · intro ic c hic
    refine ⟨?_, ?_, rfl⟩
    · simp only [GitOperationsTool.commit, tryEnsure_bound h, h, hic]
      rfl
    · simp only [GitOperationsTool.commit, tryEnsure_bound h, h, hic]
  · intro ic em hic
    simp only [GitOperationsTool.commit, tryEnsure_bound h, h, hic]

/-- Witness for C9 at the empty message: the library accepts it and a commit
is created; and the failing oracle yields the `CommitFailed`-style record. -/
theorem C9_witness :
    (((tBound r0).commit fs0 icA "" none none).1 = .ok (commitRecord cA "") ∧
      ((tBound r0).commit fs0 icA "" none none).2 =
        { tBound r0 with repo := some (indexCommitEffect r0 cA) } ∧
      (indexCommitEffect r0 cA).commits = cA :: r0.commits) ∧
    ((tBound r0).commit fs0 icFail "" none none =
      (.ok [("success", .bool false),
            ("error", .str ("Failed to commit: " ++ "nothing to commit"))], tBound r0)) := by
  have H := C9_theorem (tBound r0) fs0 r0 "" none none rfl
  exact ⟨H.1 icA cA (fun _ _ => rfl), H.2 icFail "nothing to commit" (fun _ _ => rfl)⟩

/-- Counterexample to C9 as stated: calling `commit` with the empty message
on a bound repository with a staged change creates the commit and returns
`success=true` — the facade performs no message validation, so there is no
`CommitFailed` result for an empty message. -/
theorem C9_counterexample :
    ((tBound r0).commit fs0 icA "" none none).1 = .ok (commitRecord cA "") ∧
    (commitRecord cA "").lookup "success" = some (.bool true) ∧
    ((tBound r0).commit fs0 icA "" none none).2 =
      { tBound r0 with repo := some (indexCommitEffect r0 cA) } ∧
    (indexCommitEffect r0 cA).commits = [cA] :=
  ⟨rfl, rfl, rfl, rfl⟩

/-! ## C2 — authentication URL rewriting -/

/-- `String.data` distributes over append (definitionally). -/
theorem string_data_append (s t : String) : (s ++ t).data = s.data ++ t.data := rfl

/-- C2 (amended): with no credential (or an empty one) the URL is returned
unchanged; a URL starting with neither GitHub form is returned unchanged even
with a credential; and because Python's `str.replace` rewrites every
occurrence of the pattern, the claimed results hold exactly when the GitHub
prefix substrings do not recur later in the URL: an SSH-form URL
`git@github.com: ++ rest` whose tail contains neither pattern becomes
`https://{token}@github.com/ ++ rest`, and an HTTPS-form URL
`https://github.com/ ++ rest` whose tail does not contain the HTTPS prefix
again has the credential inserted as the userinfo component. -/
theorem C2_theorem :
    (∀ url, GitOperationsTool._get_authenticated_url none url = url) ∧
    (∀ url, GitOperationsTool._get_authenticated_url (some "") url = url) ∧
    (∀ tok url, pyStartsWith url "git@github.com:" = false →
      pyStartsWith url "https://github.com/" = false →
      GitOperationsTool._get_authenticated_url (some tok) url = url) ∧
    (∀ tok rest, tok ≠ "" →
      containsSeq "git@github.com:".data rest.data = false →
      containsSeq "https://github.com/".data rest.data = false →
      GitOperationsTool._get_authenticated_url (some tok) ("git@github.com:" ++ rest) =
        "https://" ++ tok ++ "@github.com/" ++ rest) ∧
    (∀ tok rest, tok ≠ "" →
      containsSeq "https://github.com/".data rest.data = false →
      GitOperationsTool._get_authenticated_url (some tok) ("https://github.com/" ++ rest) =
        "https://" ++ tok ++ "@github.com/" ++ rest) := by
  refine ⟨fun url => rfl, fun url => by simp [GitOperationsTool._get_authenticated_url],
    ?_, ?_, ?_⟩
  · intro tok url h1 h2
    by_cases ht : tok = ""
    · subst ht; simp [GitOperationsTool._get_authenticated_url]
    · simp [GitOperationsTool._get_authenticated_url, if_neg ht, h1, h2]
  · intro tok rest ht h1 h2
    have hSsh : pyStartsWith ("git@github.com:" ++ rest) "git@github.com:" = true :=
      pyStartsWith_append _ _
    have hRepl1 : pyReplace ("git@github.com:" ++ rest) "git@github.com:"
        "https://github.com/" = "https://github.com/" ++ rest :=
      pyReplace_single _ _ _ (by decide) h1
    have hHttps : pyStartsWith ("https://github.com/" ++ rest) "https://github.com/" = true :=
      pyStartsWith_append _ _
    have hRepl2 : pyReplace ("https://github.com/" ++ rest) "https://github.com/"
        ("https://" ++ (tok ++ "@github.com/")) =
        ("https://" ++ (tok ++ "@github.com/")) ++ rest :=
      pyReplace_single _ _ _ (by decide) h2
    simp [GitOperationsTool._get_authenticated_url, if_neg ht, hSsh, hRepl1,
      hHttps, hRepl2, String.append_assoc]
  · intro tok rest ht h2
    have hNotSsh := https_not_ssh rest
    have hHttps : pyStartsWith ("https://github.com/" ++ rest) "https://github.com/" = true :=
      pyStartsWith_append _ _
    have hRepl2 : pyReplace ("https://github.com/" ++ rest) "https://github.com/"
        ("https://" ++ (tok ++ "@github.com/")) =
        ("https://" ++ (tok ++ "@github.com/")) ++ rest :=
      pyReplace_single _ _ _ (by decide) h2
    simp [GitOperationsTool._get_authenticated_url, if_neg ht, hNotSsh, hHttps,
      hRepl2, String.append_assoc]

/-- Witness for C2: concrete rewrites of a standard SSH URL, a standard HTTPS
URL, and a non-GitHub URL with a configured credential. -/
theorem C2_witness :
    GitOperationsTool._get_authenticated_url (some "TOKEN")
        ("git@github.com:" ++ "owner/repo.git") =
      "https://" ++ "TOKEN" ++ "@github.com/" ++ "owner/repo.git" ∧
    GitOperationsTool._get_authenticated_url (some "TOKEN")
        ("https://github.com/" ++ "owner/repo.git") =
      "https://" ++ "TOKEN" ++ "@github.com/" ++ "owner/repo.git" ∧
    GitOperationsTool._get_authenticated_url (some "TOKEN")
      "https://gitlab.com/owner/repo.git" = "https://gitlab.com/owner/repo.git" ∧
    GitOperationsTool._get_authenticated_url none "git@github.com:owner/repo.git" =
      "git@github.com:owner/repo.git" :=
  ⟨C2_theorem.2.2.2.1 "TOKEN" "owner/repo.git" (by decide) (by decide) (by decide),
   C2_theorem.2.2.2.2 "TOKEN" "owner/repo.git" (by decide) (by decide),
   C2_theorem.2.2.1 "TOKEN" "https://gitlab.com/owner/repo.git" (by decide) (by decide),
   C2_theorem.1 "git@github.com:owner/repo.git"⟩

/-- Counterexample to C2 as stated: for an HTTPS GitHub URL whose tail
contains the prefix string again, the code rewrites *every* occurrence, so
the result is not the URL with the credential inserted only as a userinfo
component. -/
theorem C2_counterexample :
    GitOperationsTool._get_authenticated_url (some "T")
        ("https://github.com/" ++ "a/https://github.com/b") ≠
      "https://" ++ "T" ++ "@github.com/" ++ "a/https://github.com/b" := by decide

/-! ## C1 — result-record shape and the exception boundary -/

theorem clone_repository_wf (t : GitOperationsTool) (env : CloneEnv)
    (ru dp br : Option String) (de : Option Nat) :
    wfResult (t.clone_repository env ru dp br de) := by
  intro d hd hs
  unfold GitOperationsTool.clone_repository at hd
  dsimp only at hd
  split at hd
  · injection hd with hd; subst hd
    exact ⟨_, rfl, by decide⟩
  · split at hd
    · injection hd with hd; subst hd
      exact ⟨_, rfl, by decide⟩
    · split at hd
      · injection hd with hd; subst hd
        injection hs with hs1
        injection hs1 with hs2
        exact Bool.noConfusion hs2
      · injection hd with hd; subst hd
        exact ⟨_, rfl, append_ne_empty_left _ (by decide)⟩
      · cases hd

theorem create_branch_wf (t : GitOperationsTool) (fs : FsEnv) (env : BranchEnv)
    (bn : String) (co : Bool) (sp : Option String) :
    wfResult (t.create_branch fs env bn co sp) := by
  intro d hd hs
  unfold GitOperationsTool.create_branch at hd
  dsimp only at hd
  split at hd
  all_goals try split at hd
  all_goals try split at hd
  all_goals try split at hd
  all_goals dsimp only at hd
  all_goals first
    | (injection hd with hd; subst hd;
       first
         | (injection hs with hs1; injection hs1 with hs2; exact Bool.noConfusion hs2)
         | exact ⟨_, rfl, by decide⟩
         | exact ⟨_, rfl, append_ne_empty_left _ (by decide)⟩
         | exact ⟨_, rfl, append3_ne_empty _ _ _ (by decide)⟩)
    | injection hd

theorem checkout_branch_wf (t : GitOperationsTool) (fs : FsEnv) (env : BranchEnv)
    (ce : Option PyExc) (bn : String) (cim : Bool) :
    wfResult (t.checkout_branch fs env ce bn cim) := by
  intro d hd hs
  unfold GitOperationsTool.checkout_branch at hd
  dsimp only at hd
  split at hd
  all_goals try split at hd
  all_goals try split at hd
  all_goals try split at hd
  all_goals try dsimp only at hd
  all_goals first
    | (injection hd with hd; subst hd;
       first
         | (injection hs with hs1; injection hs1 with hs2; exact Bool.noConfusion hs2)
         | exact ⟨_, rfl, by decide⟩
         | exact ⟨_, rfl, append_ne_empty_left _ (by decide)⟩
         | exact ⟨_, rfl, append3_ne_empty _ _ _ (by decide)⟩)
    | injection hd
    | exact create_branch_wf _ _ _ _ _ _ d hd hs
    | (subst d;
       first
         | (injection hs with hs1; injection hs1 with hs2; exact Bool.noConfusion hs2)
         | exact ⟨_, rfl, by decide⟩
         | exact ⟨_, rfl, append_ne_empty_left _ (by decide)⟩
         | exact ⟨_, rfl, append3_ne_empty _ _ _ (by decide)⟩)

theorem stage_files_wf (t : GitOperationsTool) (fs : FsEnv) (env : StageEnv)
    (fp : Option (List String)) (sa : Bool) :
    wfResult (t.stage_files fs env fp sa) := by
  intro d hd hs
  unfold GitOperationsTool.stage_files at hd
  dsimp only at hd
  split at hd
  all_goals try split at hd
  all_goals try split at hd
  all_goals try split at hd
  all_goals dsimp only at hd
  all_goals first
    | (injection hd with hd; subst hd;
       first
         | (injection hs with hs1; injection hs1 with hs2; exact Bool.noConfusion hs2)
         | exact ⟨_, rfl, by decide⟩
         | exact ⟨_, rfl, append_ne_empty_left _ (by decide)⟩
         | exact ⟨_, rfl, append3_ne_empty _ _ _ (by decide)⟩)
    | injection hd

theorem commit_wf (t : GitOperationsTool) (fs : FsEnv)
    (ic : String → Option (String × String) → Except PyExc Commit)
    (msg : String) (an ae : Option String) :
    wfResult (t.commit fs ic msg an ae) := by
  intro d hd hs
  unfold GitOperationsTool.commit at hd
  dsimp only at hd
  split at hd
  all_goals try split at hd
  all_goals try split at hd
  all_goals dsimp only at hd
  all_goals first
    | (injection hd with hd; subst hd;
       first
         | (injection hs with hs1; injection hs1 with hs2; exact Bool.noConfusion hs2)
         | exact ⟨_, rfl, by decide⟩
         | exact ⟨_, rfl, append_ne_empty_left _ (by decide)⟩
         | exact ⟨_, rfl, append3_ne_empty _ _ _ (by decide)⟩)
    | injection hd

theorem push_wf (t : GitOperationsTool) (fs : FsEnv) (env : PushEnv)
    (rm : String) (br : Option String) (su fo : Bool) :
    wfResult (t.push fs env rm br su fo) := by
  intro d hd hs
  unfold GitOperationsTool.push at hd
  dsimp only at hd
  split at hd
  all_goals try split at hd
  all_goals try split at hd
  all_goals try split at hd
  all_goals try split at hd
  all_goals try split at hd
  all_goals dsimp only at hd
  all_goals first
    | (injection hd with hd; subst hd;
       first
         | (injection hs with hs1; injection hs1 with hs2; exact Bool.noConfusion hs2)
         | exact ⟨_, rfl, by decide⟩
         | exact ⟨_, rfl, append_ne_empty_left _ (by decide)⟩
         | exact ⟨_, rfl, append3_ne_empty _ _ _ (by decide)⟩)
    | injection hd

theorem pull_wf (t : GitOperationsTool) (fs : FsEnv) (env : PullEnv)
    (rm : String) (br : Option String) :
    wfResult (t.pull fs env rm br) := by
  intro d hd hs
  unfold GitOperationsTool.pull at hd
  dsimp only at hd
  split at hd
  all_goals try split at hd
  all_goals try split at hd
  all_goals try split at hd
  all_goals try split at hd
  all_goals dsimp only at hd
  all_goals first
    | (injection hd with hd; subst hd;
       first
         | (injection hs with hs1; injection hs1 with hs2; exact Bool.noConfusion hs2)
         | exact ⟨_, rfl, by decide⟩
         | exact ⟨_, rfl, append_ne_empty_left _ (by decide)⟩
         | exact ⟨_, rfl, append3_ne_empty _ _ _ (by decide)⟩)
    | injection hd

theorem get_status_wf (t : GitOperationsTool) (fs : FsEnv) (se : Option PyExc) :
    wfResult (t.get_status fs se) := by
  intro d hd hs
  unfold GitOperationsTool.get_status at hd
  dsimp only at hd
  split at hd
  all_goals try split at hd
  all_goals dsimp only at hd
  all_goals first
    | (injection hd with hd; subst hd;
       first
         | (injection hs with hs1; injection hs1 with hs2; exact Bool.noConfusion hs2)
         | exact ⟨_, rfl, by decide⟩
         | exact ⟨_, rfl, append_ne_empty_left _ (by decide)⟩
         | exact ⟨_, rfl, append3_ne_empty _ _ _ (by decide)⟩)
    | injection hd

theorem get_branches_wf (t : GitOperationsTool) (fs : FsEnv) (be : Option PyExc)
    (ir : Bool) : wfResult (t.get_branches fs be ir) := by
  intro d hd hs
  unfold GitOperationsTool.get_branches at hd
  dsimp only at hd
  split at hd
  all_goals try split at hd
  all_goals try split at hd
  all_goals try split at hd
  all_goals dsimp only at hd
  all_goals first
    | (injection hd with hd; subst hd;
       first
         | (injection hs with hs1; injection hs1 with hs2; exact Bool.noConfusion hs2)
         | exact ⟨_, rfl, by decide⟩
         | exact ⟨_, rfl, append_ne_empty_left _ (by decide)⟩
         | exact ⟨_, rfl, append3_ne_empty _ _ _ (by decide)⟩)
    | injection hd

theorem get_commit_history_wf (t : GitOperationsTool) (fs : FsEnv)
    (ie : Option PyExc) (mc : Nat) (br : Option String) :
    wfResult (t.get_commit_history fs ie mc br) := by
  intro d hd hs
  unfold GitOperationsTool.get_commit_history at hd
  dsimp only at hd
  split at hd
  all_goals try split at hd
  all_goals try split at hd
  all_goals try split at hd
  all_goals dsimp only at hd
  all_goals first
    | (injection hd with hd; subst hd;
       first
         | (injection hs with hs1; injection hs1 with hs2; exact Bool.noConfusion hs2)
         | exact ⟨_, rfl, by decide⟩
         | exact ⟨_, rfl, append_ne_empty_left _ (by decide)⟩
         | exact ⟨_, rfl, append3_ne_empty _ _ _ (by decide)⟩)
    | injection hd

theorem add_remote_wf (t : GitOperationsTool) (fs : FsEnv) (ce : Option PyExc)
    (nm u : String) : wfResult (t.add_remote fs ce nm u) := by
  intro d hd hs
  unfold GitOperationsTool.add_remote at hd
  dsimp only at hd
  split at hd
  all_goals try split at hd
  all_goals try split at hd
  all_goals dsimp only at hd
  all_goals first
    | (injection hd with hd; subst hd;
       first
         | (injection hs with hs1; injection hs1 with hs2; exact Bool.noConfusion hs2)
         | exact ⟨_, rfl, by decide⟩
         | exact ⟨_, rfl, append_ne_empty_left _ (by decide)⟩
         | exact ⟨_, rfl, append3_ne_empty _ _ _ (by decide)⟩)
    | injection hd

theorem get_diff_wf (t : GitOperationsTool) (fs : FsEnv) (de : Option PyExc)
    (ca : Bool) (fp : Option String) : wfResult (t.get_diff fs de ca fp) := by
  intro d hd hs
  unfold GitOperationsTool.get_diff at hd
  dsimp only at hd
  split at hd
  all_goals try split at hd
  all_goals try split at hd
  all_goals dsimp only at hd
  all_goals first
    | (injection hd with hd; subst hd;
       first
         | (injection hs with hs1; injection hs1 with hs2; exact Bool.noConfusion hs2)
         | exact ⟨_, rfl, by decide⟩
         | exact ⟨_, rfl, append_ne_empty_left _ (by decide)⟩
         | exact ⟨_, rfl, append3_ne_empty _ _ _ (by decide)⟩)
    | injection hd

/-- C1 (amended): every facade method returns result records in which
`success=false` always pairs with a populated (non-empty) `error` string, and
each method converts the library exceptions it handles into such a record at
the operation boundary — `GitCommandError` everywhere, and any exception
class in `get_status` / `get_branches` / `get_commit_history`.  Construction
is the exception to "never raises": when the configured path exists but is
not a valid repository, `__init__` raises `ValueError` past the facade
boundary (as its own test suite asserts), and exception classes outside a
method's handler propagate. -/
theorem C1_theorem :
    (∀ t env ru dp br de, wfResult (GitOperationsTool.clone_repository t env ru dp br de)) ∧
    (∀ t fs env bn co sp, wfResult (GitOperationsTool.create_branch t fs env bn co sp)) ∧
    (∀ t fs env ce bn cim, wfResult (GitOperationsTool.checkout_branch t fs env ce bn cim)) ∧
    (∀ t fs env fp sa, wfResult (GitOperationsTool.stage_files t fs env fp sa)) ∧
    (∀ t fs ic msg an ae, wfResult (GitOperationsTool.commit t fs ic msg an ae)) ∧
    (∀ t fs env rm br su fo, wfResult (GitOperationsTool.push t fs env rm br su fo)) ∧
    (∀ t fs env rm br, wfResult (GitOperationsTool.pull t fs env rm br)) ∧
    (∀ t fs se, wfResult (GitOperationsTool.get_status t fs se)) ∧
    (∀ t fs be ir, wfResult (GitOperationsTool.get_branches t fs be ir)) ∧
    (∀ t fs ie mc br, wfResult (GitOperationsTool.get_commit_history t fs ie mc br)) ∧
    (∀ t fs ce nm u, wfResult (GitOperationsTool.add_remote t fs ce nm u)) ∧
    (∀ t fs de ca fp, wfResult (GitOperationsTool.get_diff t fs de ca fp)) ∧
    (∀ (t : GitOperationsTool) (env : CloneEnv) (ru dp br : Option String)
        (de : Option Nat) (m : String),
      strTruthy (pyOrStr ru t.default_repo_url) = true →
      strTruthy (pyOrStr dp t.repo_path) = true →
      (∀ u d b dep, env.clone_from u d b dep = .error (.gitCommandError m)) →
      t.clone_repository env ru dp br de =
        (.ok [("success", .bool false),
              ("error", .str ("Failed to clone repository: " ++ m))], t)) ∧
    (∀ t fs (r : RepoState) env bn co sp m, t.repo = some r →
      env.create_head_exc = some (.gitCommandError m) →
      GitOperationsTool.create_branch t fs env bn co sp =
        (.ok [("success", .bool false),
              ("error", .str ("Failed to create branch: " ++ m))], t)) ∧
    (∀ t fs (r : RepoState) env bn cim m, t.repo = some r →
      r.heads.contains bn = true →
      GitOperationsTool.checkout_branch t fs env (some (.gitCommandError m)) bn cim =
        (.ok [("success", .bool false),
              ("error", .str ("Failed to checkout branch: " ++ m))], t)) ∧
    (∀ t fs (r : RepoState) (iae : Option PyExc) fp m, t.repo = some r →
      GitOperationsTool.stage_files t fs
          { git_add_exc := some (.gitCommandError m), index_add_exc := iae } fp true =
        (.ok [("success", .bool false),
              ("error", .str ("Failed to stage files: " ++ m))], t)) ∧
    (∀ t fs (r : RepoState)
        (ic : String → Option (String × String) → Except PyExc Commit) msg an ae m,
      t.repo = some r →
      (∀ ms a, ic ms a = .error (.gitCommandError m)) →
      GitOperationsTool.commit t fs ic msg an ae =
        (.ok [("success", .bool false),
              ("error", .str ("Failed to commit: " ++ m))], t)) ∧
    (∀ t fs (r : RepoState) rm br su fo u m, t.repo = some r →
      t.github_token = none → r.remotes.lookup rm = some u →
      GitOperationsTool.push t fs ⟨.error (.gitCommandError m)⟩ rm br su fo =
        (.ok [("success", .bool false),
              ("error", .str ("Failed to push: " ++ m))], t)) ∧
    (∀ t fs (r : RepoState) rm br u m, t.repo = some r →
      t.github_token = none → r.remotes.lookup rm = some u →
      GitOperationsTool.pull t fs ⟨.error (.gitCommandError m)⟩ rm br =
        (.ok [("success", .bool false),
              ("error", .str ("Failed to pull: " ++ m))], t)) ∧
    (∀ t fs (r : RepoState) (e : PyExc), t.repo = some r →
      GitOperationsTool.get_status t fs (some e) =
        (.ok [("success", .bool false),
              ("error", .str ("Failed to get status: " ++ e.message))], t)) ∧
    (∀ t fs (r : RepoState) (e : PyExc) ir, t.repo = some r →
      GitOperationsTool.get_branches t fs (some e) ir =
        (.ok [("success", .bool false),
              ("error", .str ("Failed to get branches: " ++ e.message))], t)) ∧
    (∀ t fs (r : RepoState) (e : PyExc) mc br, t.repo = some r →
      GitOperationsTool.get_commit_history t fs (some e) mc br =
        (.ok [("success", .bool false),
              ("error", .str ("Failed to get commit history: " ++ e.message))], t)) ∧
    (∀ t fs (r : RepoState) nm u m, t.repo = some r →
      GitOperationsTool.add_remote t fs (some (.gitCommandError m)) nm u =
        (.ok [("success", .bool false),
              ("error", .str ("Failed to add remote: " ++ m))], t)) ∧
    (∀ t fs (r : RepoState) ca fp m, t.repo = some r →
      GitOperationsTool.get_diff t fs (some (.gitCommandError m)) ca fp =
        (.ok [("success", .bool false),
              ("error", .str ("Failed to get diff: " ++ m))], t)) ∧
    (∀ (fs : FsEnv) (env : EnvVars) (p : String), p ≠ "" →
      fs.path_exists p = true → fs.open_repo p = none →
      GitOperationsTool.init fs env (some p) none false =
        .error (.valueError (p ++ " is not a valid Git repository"))) := by
  refine ⟨clone_repository_wf, create_branch_wf, checkout_branch_wf, stage_files_wf,
    commit_wf, push_wf, pull_wf, get_status_wf, get_branches_wf,
    get_commit_history_wf, add_remote_wf, get_diff_wf,
    ?_, ?_, ?_, ?_, ?_, ?_, ?_, ?_, ?_, ?_, ?_, ?_, ?_⟩
  · intro t env ru dp br de m h1 h2 henv
    unfold GitOperationsTool.clone_repository
    simp only [h1, h2, henv]
    rfl
  · intro t fs r env bn co sp m h hexc
    simp only [GitOperationsTool.create_branch, tryEnsure_bound h, h, hexc]
  · intro t fs r env bn cim m h hcont
    simp only [GitOperationsTool.checkout_branch, tryEnsure_bound h, h, hcont]
    rfl
  · intro t fs r iae fp m h
    simp only [GitOperationsTool.stage_files, tryEnsure_bound h, h]
    rfl
  · intro t fs r ic msg an ae m h hic
    simp only [GitOperationsTool.commit, tryEnsure_bound h, h, hic]
  · intro t fs r rm br su fo u m h htok hlook
    simp [GitOperationsTool.push, tryEnsure_bound h, h, htok, hlook, strTruthy]
    rw [← htok, ← h]
  · intro t fs r rm br u m h htok hlook
    simp [GitOperationsTool.pull, tryEnsure_bound h, h, htok, hlook, strTruthy]
    rw [← htok, ← h]
  · intro t fs r e h
    simp only [GitOperationsTool.get_status, tryEnsure_bound h, h]
  · intro t fs r e ir h
    simp only [GitOperationsTool.get_branches, tryEnsure_bound h, h]
  · intro t fs r e mc br h
    simp only [GitOperationsTool.get_commit_history, tryEnsure_bound h, h]
  · intro t fs r nm u m h
    simp only [GitOperationsTool.add_remote, tryEnsure_bound h, h]
  · intro t fs r ca fp m h
    simp only [GitOperationsTool.get_diff, tryEnsure_bound h, h]
  · intro fs env p hp hex hopen
    simp [GitOperationsTool.init, hp, hex, hopen]

/-- Counterexample to C1 as stated: construction is an operation of the
facade, and on a path that exists but is not a valid Git repository it raises
`ValueError` past the facade boundary instead of returning a result record. -/
theorem C1_counterexample :
    GitOperationsTool.init fsInvalid envVars0 (some "/work/repo") none false =
      .error (.valueError ("/work/repo" ++ " is not a valid Git repository")) := rfl

/-- Witness for C1 at concrete inputs: a returned failure record carries a
populated error string; a `GitCommandError` from staging and an arbitrary
exception inside `get_status` are both converted to records; and the
construction conjunct fires on an invalid repository path. -/
theorem C1_witness :
    (∃ s, ([("success", PyVal.bool false),
            ("error", PyVal.str "No repository URL provided and GIT_REPO_URL not set in environment")] :
        PyDict).lookup "error" = some (.str s) ∧ s ≠ "") ∧
    GitOperationsTool.stage_files (tBound r0) fs0
        { git_add_exc := some (.gitCommandError "boom"), index_add_exc := none } none true =
      (.ok [("success", .bool false),
            ("error", .str ("Failed to stage files: " ++ "boom"))], tBound r0) ∧
    GitOperationsTool.get_status (tBound r0) fs0 (some (.otherError "disk error")) =
      (.ok [("success", .bool false),
            ("error", .str ("Failed to get status: " ++ (PyExc.otherError "disk error").message))],
       tBound r0) ∧
    GitOperationsTool.init fsInvalid envVars0 (some "/work/repo") none false =
      .error (.valueError ("/work/repo" ++ " is not a valid Git repository")) := by
  obtain ⟨w1, -, -, -, -, -, -, -, -, -, -, -, -, -, -, sc, -, -, -, gs, -, -, -, -, ini⟩ :=
    C1_theorem
  refine ⟨?_, ?_, ?_, ?_⟩
  · exact w1 t0 cloneEnvFail none none none none _ rfl rfl
  · exact sc (tBound r0) fs0 r0 none none "boom" rfl
  · exact gs (tBound r0) fs0 r0 (.otherError "disk error") rfl
  · exact ini fsInvalid envVars0 "/work/repo" (by decide) rfl rfl
